import Mathlib

/-!
Verification development for the AWS IoT Core daily statistics / reporting Lambda
(`index.js`, `components/AWSIotCoreStatistic.js`, `components/AWSIotErrorStatistic.js`
(the revision exporting `getTop10AuthFailureAPPClients`), `components/AWSIotMsgStatistic.js`,
`components/ScheduleStatistics.js`).

The embedding is shallow: every AWS SDK call is replaced by an input parameter holding
the value that call would have produced, with `Except String _` modelling a call that can
throw (`.error e` is a thrown failure whose message is `e`).  JavaScript `async` functions
that catch all of their own failures become total Lean functions; functions that rethrow
return `Except`.  Wall-clock values (`new Date()`, `timestamp` fields, the 1-second sleep
between polls, the display timezone) are not modelled; neither is the markdown cosmetics of
the report bodies beyond the computations embedded below (`toLocaleString`, `toFixed`
string formatting are elided, keeping the underlying numeric value).
-/

namespace AwsIotLogs

/-! ## A small model of JavaScript division corner cases

JavaScript numeric division never throws: `x / 0` is `NaN` (for `x = 0`) or `±Infinity`,
and `x / undefined` is `NaN`.  `JsNum` keeps the finite value exactly (as a rational;
the float rounding of the finite case is irrelevant to every claim below, which are all
about the zero-denominator case). -/

inductive JsNum where
  | num (q : ℚ)
  | nan
  | inf
  | negInf
deriving DecidableEq, Repr

/-- JavaScript `a / b` where `b` may be `undefined` (`none`). -/
def jsDiv (a : ℚ) (b : Option ℚ) : JsNum :=
  match b with
  | none => .nan
  | some q =>
      if q = 0 then
        if a = 0 then .nan else if a > 0 then .inf else .negInf
      else .num (a / q)

/-- JavaScript `x * 100` on the result of a division. -/
def jsMul100 : JsNum → JsNum
  | .num q => .num (q * 100)
  | .nan => .nan
  | .inf => .inf
  | .negInf => .negInf

/-! ## CloudWatch Contributor Insights connectors
(`AWSIotErrorStatistic.js`: `getTop10DuplicateAppClients`, `getTop10DuplicateDeviceClients`,
`getTop10AuthFailureAPPClients`). -/

/-- One entry of `response.Contributors`. -/
structure InsightContributor where
  keys : List String
  approximateAggregateValue : Nat
deriving DecidableEq, Repr

/-- The fields of a `GetInsightRuleReportCommand` response that the source reads.
`Option` marks fields that may be absent (`undefined`) in the response. -/
structure InsightRuleReport where
  aggregateValue : Option Nat
  approximateUniqueCount : Option Nat
  contributors : Option (List InsightContributor)
deriving DecidableEq, Repr

/-- One record of the mapped contributor list: lines 582-588 of
`AWSIotErrorStatistic.js` (and the identical code at 637-643 and 693-699).
`percentage` keeps the numeric value before the `toFixed(2)` string formatting
(`toFixed` maps `JsNum.nan` to the string "NaN" and `JsNum.inf` to "Infinity"). -/
structure DuplicateClientRecord where
  rank : Nat
  clientId : Option String
  sourceIp : String
  duplicateCount : Nat
  percentage : JsNum
deriving DecidableEq, Repr

/-- The arrow body of `response.Contributors?.map((contributor, index) => ...)`:
`rank: index + 1`, `clientId: contributor.Keys[0]`, `sourceIp: contributor.Keys[1] || 'Unknown'`,
`duplicateCount: contributor.ApproximateAggregateValue`,
`percentage: ((contributor.ApproximateAggregateValue / response.AggregateValue) * 100).toFixed(2)`.
The division is NOT guarded by a zero test on `response.AggregateValue`. -/
def mkDuplicateClientRecord (aggregateValue : Option Nat) (index : Nat)
    (c : InsightContributor) : DuplicateClientRecord :=
  { rank := index + 1
    clientId := c.keys.head?
    sourceIp :=
      match c.keys.get? 1 with
      | some s => if s = "" then "Unknown" else s
      | none => "Unknown"
    duplicateCount := c.approximateAggregateValue
    percentage :=
      jsMul100 (jsDiv (c.approximateAggregateValue : ℚ)
        (aggregateValue.map (fun n => (n : ℚ)))) }

/-- `response.Contributors?.map(...) || []`. -/
def mapInsightContributors (r : InsightRuleReport) : List DuplicateClientRecord :=
  match r.contributors with
  | some cs => cs.mapIdx (fun i c => mkDuplicateClientRecord r.aggregateValue i c)
  | none => []

/-- Return shape of `getTop10DuplicateAppClients` / `getTop10DuplicateDeviceClients`.
The source field named `type` is rendered here as `clientType` (`type` is a Lean keyword). -/
structure DuplicateClientsReport where
  totalEvents : Nat
  uniqueClients : Nat
  duplicateClients : List DuplicateClientRecord
  clientType : String
  error : Option String
deriving DecidableEq, Repr

/-- Return shape of `getTop10AuthFailureAPPClients`. -/
structure AuthFailureClientsReport where
  totalEvents : Nat
  uniqueClients : Nat
  authFailureClients : List DuplicateClientRecord
  clientType : String
  error : Option String
deriving DecidableEq, Repr

/-- `getTop10DuplicateAppClients` (`AWSIotErrorStatistic.js` lines 559-606): the whole body
is wrapped in try/catch; the catch returns the zero report with `error: error.message`. -/
def getTop10DuplicateAppClients (response : Except String InsightRuleReport) :
    DuplicateClientsReport :=
  match response with
  | .ok r =>
      { totalEvents := r.aggregateValue.getD 0
        uniqueClients := r.approximateUniqueCount.getD 0
        duplicateClients := mapInsightContributors r
        clientType := "application"
        error := none }
  | .error e =>
      { totalEvents := 0
        uniqueClients := 0
        duplicateClients := []
        clientType := "application"
        error := some e }

/-- `getTop10DuplicateDeviceClients` (lines 614-661), identical up to the rule name and type tag. -/
def getTop10DuplicateDeviceClients (response : Except String InsightRuleReport) :
    DuplicateClientsReport :=
  match response with
  | .ok r =>
      { totalEvents := r.aggregateValue.getD 0
        uniqueClients := r.approximateUniqueCount.getD 0
        duplicateClients := mapInsightContributors r
        clientType := "device"
        error := none }
  | .error e =>
      { totalEvents := 0
        uniqueClients := 0
        duplicateClients := []
        clientType := "device"
        error := some e }

/-- `getTop10AuthFailureAPPClients` (lines 670-717), identical up to the rule name and the
`authFailureClients` field name. -/
def getTop10AuthFailureAPPClients (response : Except String InsightRuleReport) :
    AuthFailureClientsReport :=
  match response with
  | .ok r =>
      { totalEvents := r.aggregateValue.getD 0
        uniqueClients := r.approximateUniqueCount.getD 0
        authFailureClients := mapInsightContributors r
        clientType := "application"
        error := none }
  | .error e =>
      { totalEvents := 0
        uniqueClients := 0
        authFailureClients := []
        clientType := "application"
        error := some e }

/-- Aggregation-period normalization computed at the top of each of the three contributor
connectors (lines 561-567, 616-622, 672-678):
`timeDiffSeconds = Math.floor((endTime - startTime) / 1000)`;
`period = Math.min(86400, Math.max(3600, timeDiffSeconds))`;
`period = Math.floor(period / 60) * 60; if (period < 60) period = 60`.
The input is the window length `endTime - startTime` in milliseconds;
`Int.fdiv` is floor division, matching `Math.floor` of a real division. -/
def computeInsightPeriod (timeDiffMs : Int) : Int :=
  let timeDiffSeconds := Int.fdiv timeDiffMs 1000
  let clamped := min 86400 (max 3600 timeDiffSeconds)
  let rounded := Int.fdiv clamped 60 * 60
  if rounded < 60 then 60 else rounded

/-- The `GetInsightRuleReportCommand` parameters each connector sends. -/
structure InsightRuleParams where
  ruleName : String
  period : Int
  maxContributorCount : Nat
deriving DecidableEq, Repr

/-- Request parameters built by `getTop10DuplicateAppClients` (lines 569-575). -/
def duplicateAppClientsParams (timeDiffMs : Int) : InsightRuleParams :=
  { ruleName := "iot-duplicateclientid-account"
    period := computeInsightPeriod timeDiffMs
    maxContributorCount := 10 }

/-- Request parameters built by `getTop10DuplicateDeviceClients` (lines 624-630). -/
def duplicateDeviceClientsParams (timeDiffMs : Int) : InsightRuleParams :=
  { ruleName := "iot-duplicateclientid-device"
    period := computeInsightPeriod timeDiffMs
    maxContributorCount := 10 }

/-- Request parameters built by `getTop10AuthFailureAPPClients` (lines 680-686). -/
def authFailureAppClientsParams (timeDiffMs : Int) : InsightRuleParams :=
  { ruleName := "iot-authorizationfailure-app"
    period := computeInsightPeriod timeDiffMs
    maxContributorCount := 10 }

/-- `getDailyIoTErrorStatistics` (lines 724-749): `Promise.all` over the three contributor
connectors; the three response parameters model the three independent backend calls.
The wall-clock `timestamp` field is not modelled. -/
structure ErrorStatisticsDoc where
  date : String
  duplicateAppClients : DuplicateClientsReport
  duplicateDeviceClients : DuplicateClientsReport
  authFailureAppClients : AuthFailureClientsReport
deriving DecidableEq, Repr

def getDailyIoTErrorStatistics (date : String)
    (appResponse deviceResponse authResponse : Except String InsightRuleReport) :
    ErrorStatisticsDoc :=
  { date := date
    duplicateAppClients := getTop10DuplicateAppClients appResponse
    duplicateDeviceClients := getTop10DuplicateDeviceClients deviceResponse
    authFailureAppClients := getTop10AuthFailureAPPClients authResponse }

/-! ## Redshift async query state machine
(`AWSIotCoreStatistic.js`: `waitForQueryCompletion`, lines 106-135, and the three
count queries `getAccountCountFromRedshift`, `getDeviceCountFromRedshift`,
`getGatewayDeviceCountFromRedshift`). -/

/-- The statuses the source distinguishes, which is also the spec's `QueryExecution`
status domain mapped onto the Redshift Data API names (`SUBMITTED`/`PICKED`/`STARTED`
are the non-terminal states, `FINISHED` is success, `FAILED` is failure). -/
inductive RedshiftStatus where
  | SUBMITTED
  | PICKED
  | STARTED
  | FINISHED
  | FAILED
deriving DecidableEq, Repr

/-- The fields of a `DescribeStatementCommand` response the source reads
(`statusResponse.Status` and `statusResponse.Error`). -/
structure DescribeStatementResponse where
  status : RedshiftStatus
  error : String
deriving DecidableEq, Repr

/-- The loop guard `status === 'SUBMITTED' || status === 'PICKED' || status === 'STARTED'`. -/
def isPollingStatus : RedshiftStatus → Bool
  | .SUBMITTED => true
  | .PICKED => true
  | .STARTED => true
  | .FINISHED => false
  | .FAILED => false

/-- Outcome of `waitForQueryCompletion`, instrumented with the number of
`DescribeStatementCommand` polls issued.  `failed` is the thrown
`Redshift查询失败: ${statusResponse.Error}` (carrying `statusResponse.Error`);
`timedOut` is the thrown `Redshift查询超时`. -/
inductive RedshiftWaitResult where
  | completed (polls : Nat)
  | failed (reason : String) (polls : Nat)
  | timedOut (polls : Nat)
deriving DecidableEq, Repr

/-- The `while` loop of `waitForQueryCompletion`.  `statusResponse i` is the response of the
(i+1)-th `DescribeStatementCommand` send.  `remaining = maxAttempts - attempts` (the loop
guard `attempts < maxAttempts` is `remaining > 0`, and each completed iteration does
`attempts++`); when the loop exits with `attempts >= maxAttempts` the source throws the
timeout error, otherwise it returns normally.  The 1-second sleep between polls is not
modelled. -/
def waitForQueryCompletionAux (statusResponse : Nat → DescribeStatementResponse) :
    (remaining : Nat) → (attempts : Nat) → (status : RedshiftStatus) → RedshiftWaitResult
  | 0, attempts, _ => .timedOut attempts
  | remaining + 1, attempts, status =>
      if isPollingStatus status then
        if (statusResponse attempts).status = .FAILED then
          .failed (statusResponse attempts).error (attempts + 1)
        else if (statusResponse attempts).status = .FINISHED then
          .completed (attempts + 1)
        else
          waitForQueryCompletionAux statusResponse remaining (attempts + 1)
            (statusResponse attempts).status
      else
        .completed attempts

/-- `const maxAttempts = 60`. -/
def maxAttempts : Nat := 60

/-- `waitForQueryCompletion` starts from `status = 'SUBMITTED'`, `attempts = 0`. -/
def waitForQueryCompletion (statusResponse : Nat → DescribeStatementResponse) :
    RedshiftWaitResult :=
  waitForQueryCompletionAux statusResponse maxAttempts 0 .SUBMITTED

/-- Everything a Redshift count query observes from the backend: the status sequence seen
by the poll loop and the `GetStatementResultCommand` records (each cell is the optional
typed `longValue`). -/
structure RedshiftQueryBackend where
  statusResponse : Nat → DescribeStatementResponse
  records : List (List (Option Int))

/-- `results.Records && results.Records.length > 0 ? (Records[0][0]?.longValue || 0) : 0`
(lines 186-192). -/
def getStatementResultCount (records : List (List (Option Int))) : Int :=
  match records with
  | row :: _ => (row.head?.join).getD 0
  | [] => 0

/-- Shared body of the three Redshift count queries (they are identical except for the SQL
text): execute, wait for completion, fetch and parse the result — all inside a try/catch
whose catch returns `0`.  A `.error` backend models `ExecuteStatementCommand` (or any other
send) itself throwing; a `failed`/`timedOut` wait result is the error thrown by
`waitForQueryCompletion`, likewise caught. -/
def redshiftCountQuery (backend : Except String RedshiftQueryBackend) : Int :=
  match backend with
  | .error _ => 0
  | .ok b =>
      match waitForQueryCompletion b.statusResponse with
      | .completed _ => getStatementResultCount b.records
      | .failed _ _ => 0
      | .timedOut _ => 0

/-- `getAccountCountFromRedshift` (lines 165-197). -/
def getAccountCountFromRedshift (backend : Except String RedshiftQueryBackend) : Int :=
  redshiftCountQuery backend

/-- `getDeviceCountFromRedshift` (lines 203-235). -/
def getDeviceCountFromRedshift (backend : Except String RedshiftQueryBackend) : Int :=
  redshiftCountQuery backend

/-- `getGatewayDeviceCountFromRedshift` (lines 237-269). -/
def getGatewayDeviceCountFromRedshift (backend : Except String RedshiftQueryBackend) : Int :=
  redshiftCountQuery backend

/-! ## Athena async query loop (`ScheduleStatistics.js`: `gatherStatistics`, lines 43-64).

The source loop is `do { poll; if FAILED throw; if SUCCEEDED break; sleep 1s } while (true)`:
it has NO attempt bound and NO timeout branch. -/

/-- The fields of a `GetQueryExecutionCommand` response the source reads
(`QueryExecution.Status.State` and `QueryExecution.Status.StateChangeReason`). -/
structure AthenaQueryStatus where
  state : String
  stateChangeReason : String
deriving DecidableEq, Repr

/-- Observation of the unbounded Athena poll loop after a given number of polls:
`succeeded` / `failed` are the loop returning or throwing within that many polls;
`stillPolling` means the loop has not produced any outcome yet (the source has no
timeout outcome at all). -/
inductive AthenaLoopOutcome where
  | succeeded
  | failed (reason : String)
  | stillPolling
deriving DecidableEq, Repr

/-- The `do/while(true)` poll loop of `gatherStatistics`, observed for `polls` polls;
`queryStatus i` is the response of the (i+1)-th `GetQueryExecutionCommand` send. -/
def athenaWaitLoop (queryStatus : Nat → AthenaQueryStatus) :
    (polls : Nat) → (nextPoll : Nat) → AthenaLoopOutcome
  | 0, _ => .stillPolling
  | n + 1, i =>
      if (queryStatus i).state = "FAILED" then .failed (queryStatus i).stateChangeReason
      else if (queryStatus i).state = "SUCCEEDED" then .succeeded
      else athenaWaitLoop queryStatus n (i + 1)

/-! ## CloudWatch direct metric counters
(`AWSIotErrorStatistic.js`: `getErrorMetricFromCloudWatch`, lines 530-551;
`AWSIotMsgStatistic.js`: `getMessagesFromCloudWatch`, identical body). -/

/-- The field of a `GetMetricStatisticsCommand` response the source reads: the `Sum`
statistic of each datapoint. -/
structure GetMetricStatisticsResponse where
  datapoints : List ℚ
deriving DecidableEq, Repr

/-- `response.Datapoints.length > 0 ? response.Datapoints[0].Sum : 0`, the whole call
wrapped in try/catch whose catch returns `0`. -/
def getErrorMetricFromCloudWatch (response : Except String GetMetricStatisticsResponse) : ℚ :=
  match response with
  | .error _ => 0
  | .ok r =>
      match r.datapoints with
      | d :: _ => d
      | [] => 0

/-- `getMessagesFromCloudWatch` (`AWSIotMsgStatistic.js` lines 24-45) has the same body. -/
def getMessagesFromCloudWatch (response : Except String GetMetricStatisticsResponse) : ℚ :=
  getErrorMetricFromCloudWatch response

/-! ## Snapshot store (the S3 get functions and their zero defaults)

Each `get...FromS3` wraps the `GetObjectCommand`, body read and `JSON.parse` in a
try/catch; the catch returns a fixed zero default.  The fetch parameter models the three
outcomes the source distinguishes only as success/throw: `.error ()` is a failed S3 call
(e.g. `NoSuchKey`), `.ok none` is a body `JSON.parse` throws on (malformed), and
`.ok (some doc)` is a successfully parsed document.  Fields of parsed documents are
`Option` because a stored JSON document may lack any of them. -/

/-- Shape of the stored daily-statistic document as read back by
`getYesterdayStatisticsFromS3` (`AWSIotCoreStatistic.js` lines 31-73). -/
structure YesterdayThingDoc where
  accountThingCount : Option Int
  deviceThingCount : Option Int
  totalThingCount : Option Int
deriving DecidableEq, Repr

/-- The catch-branch default of `getYesterdayStatisticsFromS3` (lines 67-71):
`{ accountThingCount: 0, deviceThingCount: 0, totalThingCount: 0 }`. -/
def yesterdayThingDefault : YesterdayThingDoc :=
  { accountThingCount := some 0
    deviceThingCount := some 0
    totalThingCount := some 0 }

def getYesterdayStatisticsFromS3 (fetch : Except Unit (Option YesterdayThingDoc)) :
    YesterdayThingDoc :=
  match fetch with
  | .ok (some doc) => doc
  | .ok none => yesterdayThingDefault
  | .error _ => yesterdayThingDefault

/-- Sub-objects of a stored error-statistic document (the old document shape written by the
earlier revision of the module has `connectionErrors`, ..., `duplicateClients`; the current
revision writes `duplicateAppClients`, `duplicateDeviceClients`, `authFailureAppClients`). -/
structure ErrGroupTotals where
  total : Nat
deriving DecidableEq, Repr

structure OldDuplicateSection where
  totalEvents : Nat
  duplicateClients : List DuplicateClientRecord
deriving DecidableEq, Repr

structure OldDuplicateClients where
  applications : OldDuplicateSection
  devices : OldDuplicateSection
deriving DecidableEq, Repr

/-- A stored error-statistic document, with `Option` for every field a given document may
or may not contain. -/
structure StoredErrorDoc where
  totalErrors : Option Nat
  connectionErrors : Option ErrGroupTotals
  publishInErrors : Option ErrGroupTotals
  publishOutErrors : Option ErrGroupTotals
  subscribeErrors : Option ErrGroupTotals
  duplicateClients : Option OldDuplicateClients
  duplicateAppClients : Option DuplicateClientsReport
  duplicateDeviceClients : Option DuplicateClientsReport
  authFailureAppClients : Option AuthFailureClientsReport
deriving DecidableEq, Repr

/-- The catch-branch default of `getErrorStatisticsFromS3`
(`AWSIotErrorStatistic.js` lines 810-820).  Note it has none of the three
contributor-group fields of the current document shape. -/
def errorStatisticsDefault : StoredErrorDoc :=
  { totalErrors := some 0
    connectionErrors := some { total := 0 }
    publishInErrors := some { total := 0 }
    publishOutErrors := some { total := 0 }
    subscribeErrors := some { total := 0 }
    duplicateClients := some
      { applications := { totalEvents := 0, duplicateClients := [] }
        devices := { totalEvents := 0, duplicateClients := [] } }
    duplicateAppClients := none
    duplicateDeviceClients := none
    authFailureAppClients := none }

/-- `getErrorStatisticsFromS3` (lines 782-822). -/
def getErrorStatisticsFromS3 (fetch : Except Unit (Option StoredErrorDoc)) : StoredErrorDoc :=
  match fetch with
  | .ok (some doc) => doc
  | .ok none => errorStatisticsDefault
  | .error _ => errorStatisticsDefault

/-- Sub-object of a stored message-statistic document. -/
structure MsgGroupStats where
  total : Option ℚ
  success : Option ℚ
deriving DecidableEq, Repr

/-- A stored message-statistic document. -/
structure StoredMsgDoc where
  totalMessages : Option ℚ
  inbound : Option MsgGroupStats
  outbound : Option MsgGroupStats
  connections : Option MsgGroupStats
deriving DecidableEq, Repr

/-- The catch-branch default of `getMessageStatisticsFromS3`
(`AWSIotMsgStatistic.js` lines 272-278). -/
def messageStatisticsDefault : StoredMsgDoc :=
  { totalMessages := some 0
    inbound := some { total := some 0, success := some 0 }
    outbound := some { total := some 0, success := some 0 }
    connections := some { total := some 0, success := some 0 } }

/-- `getMessageStatisticsFromS3` (lines 244-279). -/
def getMessageStatisticsFromS3 (fetch : Except Unit (Option StoredMsgDoc)) : StoredMsgDoc :=
  match fetch with
  | .ok (some doc) => doc
  | .ok none => messageStatisticsDefault
  | .error _ => messageStatisticsDefault

/-! ## The IoT Core thing-statistics run
(`AWSIotCoreStatistic.js`: `saveTodayStatisticsToS3` and `getAWSIotCoreStatistic`). -/

/-- `saveTodayStatisticsToS3` (lines 79-100): its catch logs and RETHROWS, so a failed
`PutObjectCommand` propagates to the caller. -/
def saveTodayStatisticsToS3 (putResult : Except String Unit) : Except String Unit :=
  match putResult with
  | .ok _ => .ok ()
  | .error e => .error e

/-- The `yesterdayData` sub-object of the statistic message. -/
structure YesterdayData where
  accountThingCount : Int
  deviceThingCount : Int
  totalThingCount : Int
deriving DecidableEq, Repr

/-- The `statisticMessage` object assembled by `getAWSIotCoreStatistic` (lines 341-355);
the wall-clock `timestamp` field is not modelled. -/
structure StatisticMessage where
  date : String
  accountThingCount : Int
  deviceThingCount : Int
  totalThingCount : Int
  accountThingIncrement : Int
  deviceThingIncrement : Int
  totalThingIncrement : Int
  yesterdayData : YesterdayData
deriving DecidableEq, Repr

/-- Result of `getAWSIotCoreStatistic`: either the statistic message, or (when one of the
awaited steps throws and the catch at lines 367-383 runs) the error object
`{ statistics: null, dingTalkMessage: <text message>, error: error.message }`,
of which we keep the error message. -/
inductive IotCoreRunResult where
  | ok (statisticMessage : StatisticMessage)
  | errorReport (error : String)
deriving DecidableEq, Repr

/-- `getAWSIotCoreStatistic` (lines 317-384).  The `Promise.all` fan-out over the three
Redshift counters and the S3 read becomes four independent backend parameters; `today` is
`new Date().toISOString().split('T')[0]`; `putResult` is the outcome of the
`PutObjectCommand` inside `saveTodayStatisticsToS3`.  All four fetch steps catch their own
failures, so the only awaited step that can throw into the outer catch is
`saveTodayStatisticsToS3`.  The `|| 0` on the yesterday fields maps an absent field to 0
(and maps 0 to 0), i.e. `Option.getD 0`. -/
def getAWSIotCoreStatistic (today : String)
    (accountBackend deviceBackend gatewayBackend : Except String RedshiftQueryBackend)
    (yesterdayFetch : Except Unit (Option YesterdayThingDoc))
    (putResult : Except String Unit) : IotCoreRunResult :=
  let accountThingCount := getAccountCountFromRedshift accountBackend
  let sdeviceThingCount := getDeviceCountFromRedshift deviceBackend
  let gatewayThingCount := getGatewayDeviceCountFromRedshift gatewayBackend
  let yesterday := getYesterdayStatisticsFromS3 yesterdayFetch
  let deviceThingCount := sdeviceThingCount + gatewayThingCount
  let totalThingCount := accountThingCount + deviceThingCount
  let yesterdayAccountThingCount := yesterday.accountThingCount.getD 0
  let yesterdayDeviceThingCount := yesterday.deviceThingCount.getD 0
  let yesterdayTotalThingCount := yesterday.totalThingCount.getD 0
  let statisticMessage : StatisticMessage :=
    { date := today
      accountThingCount := accountThingCount
      deviceThingCount := deviceThingCount
      totalThingCount := totalThingCount
      accountThingIncrement := accountThingCount - yesterdayAccountThingCount
      deviceThingIncrement := deviceThingCount - yesterdayDeviceThingCount
      totalThingIncrement := totalThingCount - yesterdayTotalThingCount
      yesterdayData :=
        { accountThingCount := yesterdayAccountThingCount
          deviceThingCount := yesterdayDeviceThingCount
          totalThingCount := yesterdayTotalThingCount } }
  match saveTodayStatisticsToS3 putResult with
  | .ok _ => .ok statisticMessage
  | .error e => .errorReport e

/-! ## Guarded percentage-of-total computations

Each of these is a ternary in the source display code that special-cases the zero (or
non-positive) denominator; the numeric value is kept and the `toFixed`/`toLocaleString`
string formatting elided. -/

/-- `statistics.totalThingCount > 0 ? ((statistics.accountThingCount / statistics.totalThingCount) * 100).toFixed(2) : 0`
(`AWSIotCoreStatistic.js` line 296). -/
def accountTypeSharePercent (accountThingCount totalThingCount : Int) : ℚ :=
  if totalThingCount > 0 then (accountThingCount : ℚ) / (totalThingCount : ℚ) * 100 else 0

/-- Line 297, same guard for the device share. -/
def deviceTypeSharePercent (deviceThingCount totalThingCount : Int) : ℚ :=
  if totalThingCount > 0 then (deviceThingCount : ℚ) / (totalThingCount : ℚ) * 100 else 0

/-- `total > 0 ? ((success / total) * 100).toFixed(2) : 0`
(`AWSIotMsgStatistic.js` lines 185-190, used for the inbound, outbound and connection
success rates). -/
def messageSuccessRate (success total : ℚ) : ℚ :=
  if total > 0 then success / total * 100 else 0

/-- `totalErrors > 0 ? ((count / totalErrors) * 100).toFixed(1) : '0'`
(`AWSIotErrorStatistic.js` lines 861-863, the overview-table shares). -/
def overviewSharePercent (count totalErrors : Nat) : ℚ :=
  if totalErrors > 0 then (count : ℚ) / (totalErrors : ℚ) * 100 else 0

/-- `uniqueClients > 0 ? Math.round(totalEvents / uniqueClients) : 0`
(lines 875, 910, 945); `Math.round x = ⌊x + 1/2⌋`. -/
def averagePerClient (totalEvents uniqueClients : Nat) : Int :=
  if uniqueClients > 0 then ⌊(totalEvents : ℚ) / (uniqueClients : ℚ) + 1 / 2⌋ else 0

/-! ## Day-over-day comparison section of the error report
(`AWSIotErrorStatistic.js` lines 978-1014). -/

/-- `const change = item.today - item.yesterday` (line 1000); the totals are event counts
(non-negative), the change can be negative. -/
def comparisonChange (today yesterday : Nat) : Int :=
  (today : Int) - (yesterday : Int)

/-- `const changePercent = item.yesterday > 0 ? ((change / item.yesterday) * 100).toFixed(1) : 'N/A'`
(line 1001); `none` is the non-numeric `'N/A'`. -/
def comparisonChangePercent (today yesterday : Nat) : Option ℚ :=
  if yesterday > 0 then
    some ((comparisonChange today yesterday : ℚ) / (yesterday : ℚ) * 100)
  else none

def renderChangePercentText (p : Option ℚ) : String :=
  match p with
  | some q => toString q
  | none => "N/A"

/-- The trend text of one comparison line (lines 1003-1013). -/
def renderTrendLine (today yesterday : Nat) : String :=
  let change := comparisonChange today yesterday
  let changePercentText := renderChangePercentText (comparisonChangePercent today yesterday)
  if change > 0 then "📈 +" ++ toString change ++ " (+" ++ changePercentText ++ "%)"
  else if change < 0 then "📉 " ++ toString change ++ " (" ++ changePercentText ++ "%)"
  else "➡️ 无变化"

/-! ## Severity ladder of the rendered error report
(`AWSIotErrorStatistic.js` lines 1022-1048). -/

inductive Severity where
  | normal
  | attention
  | warning
  | critical
deriving DecidableEq, Repr

/-- The ladder at lines 1031-1043: `let severity = '正常'` then
`if (totalErrors > 50000) 严重 else if (totalErrors > 10000) 警告 else if (totalErrors > 1000) 注意`. -/
def severityOfTotalErrors (totalErrors : Nat) : Severity :=
  if totalErrors > 50000 then .critical
  else if totalErrors > 10000 then .warning
  else if totalErrors > 1000 then .attention
  else .normal

/-- Lines 1022-1047: when `totalErrors === 0` the report prints the healthy-system block and
no severity at all; otherwise it prints the ladder classification. -/
def renderedSeverity (totalErrors : Nat) : Option Severity :=
  if totalErrors = 0 then none else some (severityOfTotalErrors totalErrors)

def severityLabel : Severity → String
  | .normal => "正常"
  | .attention => "注意"
  | .warning => "警告"
  | .critical => "严重"

/-! ## Error report renderer
(`AWSIotErrorStatistic.js`: `formatIoTErrorStatisticsMessage`, lines 830-1066). -/

/-- The renderer input: `todayStats` from `getDailyIoTErrorStatistics` or any duck-typed
statistics object; every field read through `?.` or truthiness tests is `Option`. -/
structure RenderInput where
  date : Option String
  duplicateAppClients : Option DuplicateClientsReport
  duplicateDeviceClients : Option DuplicateClientsReport
  authFailureAppClients : Option AuthFailureClientsReport
deriving DecidableEq, Repr

/-- `totalDuplicateApp + totalDuplicateDevice + totalAuthFailure`
(lines 852-855, each via `?.totalEvents || 0`). -/
def rendererTotalErrors (s : RenderInput) : Nat :=
  (s.duplicateAppClients.map (fun r => r.totalEvents)).getD 0 +
  (s.duplicateDeviceClients.map (fun r => r.totalEvents)).getD 0 +
  (s.authFailureAppClients.map (fun r => r.totalEvents)).getD 0

/-- A DingTalk message: `{ msgtype: "text", text: { content } }` or
`{ msgtype: "markdown", markdown: { title, text } }`. -/
inductive DingTalkMessage where
  | text (content : String)
  | markdownMsg (title : String) (body : String)
deriving DecidableEq, Repr

/-- The validation branch at lines 832-839. -/
def invalidStatisticsMessage : DingTalkMessage :=
  .text "❌ 错误：统计数据格式不正确或缺少日期信息"

/-- One overview-table row (lines 861-863). -/
def renderOverviewRow (label : String) (count totalErrors : Nat) : String :=
  "| " ++ label ++ " | " ++ toString count ++ " | " ++
    toString (overviewSharePercent count totalErrors) ++ "% |\n"

/-- The per-group statistics block (lines 869-899 and the two analogous blocks):
totals, unique clients, average per client, and the error marker line
`⚠️ 数据获取异常: ...` when the group's connector recorded a failure. -/
def renderGroupSection (title : String) (totalEvents uniqueClients : Nat)
    (err : Option String) : String :=
  "## " ++ title ++ "\n- 总事件数: " ++ toString totalEvents ++ " 次\n- 唯一客户端: " ++
    toString uniqueClients ++ " 个\n- 平均每客户端: " ++
    toString (averagePerClient totalEvents uniqueClients) ++ " 次\n" ++
    (match err with
     | some e => "⚠️ 数据获取异常: " ++ e ++ "\n"
     | none => "")

/-- The comparison section (lines 973-1015), rendered only when a comparison object was
resolved. -/
def renderComparisonSection (s : RenderInput) (comparison : Option RenderInput) : String :=
  match comparison with
  | none => ""
  | some c =>
      "## 📊 日环比分析\n" ++
      renderTrendLine ((s.duplicateAppClients.map (fun r => r.totalEvents)).getD 0)
        ((c.duplicateAppClients.map (fun r => r.totalEvents)).getD 0) ++ "\n" ++
      renderTrendLine ((s.duplicateDeviceClients.map (fun r => r.totalEvents)).getD 0)
        ((c.duplicateDeviceClients.map (fun r => r.totalEvents)).getD 0) ++ "\n" ++
      renderTrendLine ((s.authFailureAppClients.map (fun r => r.totalEvents)).getD 0)
        ((c.authFailureAppClients.map (fun r => r.totalEvents)).getD 0) ++ "\n"

/-- The smart-analysis section (lines 1017-1048). -/
def renderSmartAnalysis (totalErrors : Nat) : String :=
  match renderedSeverity totalErrors with
  | none => "✅ 系统状态良好\n"
  | some sev => "错误严重程度: " ++ severityLabel sev ++ "\n"

/-- The markdown body (the fixed header/footer text and emoji layout of the source are
condensed; every computation the body performs is kept). -/
def renderErrorReportBody (s : RenderInput) (comparison : Option RenderInput) : String :=
  let totalDuplicateApp := (s.duplicateAppClients.map (fun r => r.totalEvents)).getD 0
  let totalDuplicateDevice := (s.duplicateDeviceClients.map (fun r => r.totalEvents)).getD 0
  let totalAuthFailure := (s.authFailureAppClients.map (fun r => r.totalEvents)).getD 0
  let totalErrors := rendererTotalErrors s
  "## 📈 总览统计\n" ++
  renderOverviewRow "🔄 应用重复客户端" totalDuplicateApp totalErrors ++
  renderOverviewRow "🔄 设备重复客户端" totalDuplicateDevice totalErrors ++
  renderOverviewRow "🚫 授权失败" totalAuthFailure totalErrors ++
  (match s.duplicateAppClients with
   | some appStats =>
       renderGroupSection "🔄 重复客户端ID - 应用类型 (AP/)" appStats.totalEvents
         appStats.uniqueClients appStats.error
   | none => "") ++
  (match s.duplicateDeviceClients with
   | some deviceStats =>
       renderGroupSection "🔄 重复客户端ID - 设备类型 (GD/)" deviceStats.totalEvents
         deviceStats.uniqueClients deviceStats.error
   | none => "") ++
  (match s.authFailureAppClients with
   | some authStats =>
       renderGroupSection "🚫 授权失败统计 - 应用类型" authStats.totalEvents
         authStats.uniqueClients authStats.error
   | none => "") ++
  renderComparisonSection s comparison ++
  renderSmartAnalysis totalErrors

/-- `formatIoTErrorStatisticsMessage(statistics, comparison = null)` (lines 830-1066).
The guard is `if (!statistics || !statistics.date)`: a missing statistics object, a missing
`date` field, or a falsy (empty-string) date all short-circuit to the text-type error
message; otherwise the markdown report is produced. -/
def formatIoTErrorStatisticsMessage (statistics : Option RenderInput)
    (comparison : Option RenderInput) : DingTalkMessage :=
  match statistics with
  | none => invalidStatisticsMessage
  | some s =>
      match s.date with
      | none => invalidStatisticsMessage
      | some d =>
          if d = "" then invalidStatisticsMessage
          else
            .markdownMsg ("AWS IoT Core 错误统计日报 - " ++ d)
              (renderErrorReportBody s comparison)

/-! ## Resolving the previous-day comparison
(`AWSIotErrorStatistic.js`: `getAWSIoTErrorStatistic`, lines 1088-1106). -/

/-- The recompute condition at line 1098:
`!comparison || (!comparison.duplicateAppClients && !comparison.duplicateDeviceClients && !comparison.authFailureAppClients)`.
`!comparison` is always false because `getErrorStatisticsFromS3` always returns an object. -/
def needsLiveRecompute (comparison : StoredErrorDoc) : Bool :=
  comparison.duplicateAppClients.isNone &&
  comparison.duplicateDeviceClients.isNone &&
  comparison.authFailureAppClients.isNone

/-- Lines 1095-1101: load yesterday's document from S3; if the loaded object has none of
the three contributor groups, replace it by a fresh live recomputation
(`getDailyIoTErrorStatistics(yesterdayDate)`, whose value is the `liveRecompute`
parameter).  `Sum.inr` is the recomputed branch. -/
def resolveYesterdayComparison (storedFetch : Except Unit (Option StoredErrorDoc))
    (liveRecompute : ErrorStatisticsDoc) : StoredErrorDoc ⊕ ErrorStatisticsDoc :=
  let comparison := getErrorStatisticsFromS3 storedFetch
  if needsLiveRecompute comparison then Sum.inr liveRecompute else Sum.inl comparison

/-! ## Concrete backends used by the scenario theorems below -/

/-- A backend whose query finishes on the first poll with a count of exactly 0. -/
def zeroCountBackend : RedshiftQueryBackend :=
  { statusResponse := fun _ => { status := .FINISHED, error := "" }
    records := [[some 0]] }

/-- A backend that finishes on the first poll with an empty record set (count 0). -/
def emptyRecordsBackend : RedshiftQueryBackend :=
  { statusResponse := fun _ => { status := .FINISHED, error := "" }
    records := [] }

/-- A backend that finishes on the first poll with a count of 1200000. -/
def millionAccountBackend : RedshiftQueryBackend :=
  { statusResponse := fun _ => { status := .FINISHED, error := "" }
    records := [[some 1200000]] }

/-- The spec scenario status sequence `SUBMITTED, RUNNING, RUNNING, SUCCEEDED` mapped onto
the Redshift Data API names (`STARTED` is the running state, `FINISHED` the success
state): the 4th poll returns success. -/
def scenarioStatusSeq : Nat → DescribeStatementResponse := fun i =>
  match i with
  | 0 => { status := .SUBMITTED, error := "" }
  | 1 => { status := .STARTED, error := "" }
  | 2 => { status := .STARTED, error := "" }
  | 3 => { status := .FINISHED, error := "" }
  | _ => { status := .STARTED, error := "" }

/-- An insight-rule response with a zero aggregate total but a non-empty contributor list. -/
def zeroTotalInsightResponse : InsightRuleReport :=
  { aggregateValue := some 0
    approximateUniqueCount := some 3
    contributors := some [{ keys := ["AP/client-1", "10.0.0.1"], approximateAggregateValue := 5 }] }

/-- A stored previous-day error-statistic document in the shape written by the earlier
revision of the module: present in S3, all old-shape leaves populated, none of the three
contributor-group fields of the current shape. -/
def oldFormatStoredDoc : StoredErrorDoc :=
  { totalErrors := some 5
    connectionErrors := some { total := 5 }
    publishInErrors := some { total := 0 }
    publishOutErrors := some { total := 0 }
    subscribeErrors := some { total := 0 }
    duplicateClients := some
      { applications := { totalEvents := 5, duplicateClients := [] }
        devices := { totalEvents := 0, duplicateClients := [] } }
    duplicateAppClients := none
    duplicateDeviceClients := none
    authFailureAppClients := none }

/-- A concrete result of a live `getDailyIoTErrorStatistics` recomputation. -/
def liveSampleDoc : ErrorStatisticsDoc :=
  { date := "2025-07-27"
    duplicateAppClients :=
      { totalEvents := 0, uniqueClients := 0, duplicateClients := []
        clientType := "application", error := none }
    duplicateDeviceClients :=
      { totalEvents := 0, uniqueClients := 0, duplicateClients := []
        clientType := "device", error := none }
    authFailureAppClients :=
      { totalEvents := 0, uniqueClients := 0, authFailureClients := []
        clientType := "application", error := none } }

/-! ## Helper lemmas -/

theorem not_failed_not_finished_of_polling {s : RedshiftStatus}
    (h : isPollingStatus s = true) : s ≠ .FAILED ∧ s ≠ .FINISHED := by
  cases s <;> simp_all [isPollingStatus]

theorem polling_of_not_failed_not_finished {s : RedshiftStatus}
    (h1 : s ≠ .FAILED) (h2 : s ≠ .FINISHED) : isPollingStatus s = true := by
  cases s <;> simp_all [isPollingStatus]

/-- If every poll in range returns a non-terminal status, the loop exhausts its attempt
budget and times out, after exactly `remaining` further polls. -/
theorem waitAux_timedOut_of_all_polling (resp : Nat → DescribeStatementResponse) :
    ∀ (remaining attempts : Nat) (status : RedshiftStatus),
      isPollingStatus status = true →
      (∀ j, attempts ≤ j → j < attempts + remaining → isPollingStatus (resp j).status = true) →
      waitForQueryCompletionAux resp remaining attempts status =
        .timedOut (attempts + remaining) := by
  intro remaining
  induction remaining with
  | zero => intro attempts status _ _; rfl
  | succ m ih =>
      intro attempts status hs hall
      have hj : isPollingStatus (resp attempts).status = true := hall attempts le_rfl (by omega)
      obtain ⟨h1, h2⟩ := not_failed_not_finished_of_polling hj
      have hrec := ih (attempts + 1) (resp attempts).status hj
        (fun j hj1 hj2 => hall j (by omega) (by omega))
      simp only [waitForQueryCompletionAux, hs, if_true, h1, h2, if_false, ite_false, hrec]
      congr 1
      omega

/-- Conversely, a timeout only happens when every one of the `remaining` polls returned a
non-terminal status, and the poll count is the full budget. -/
theorem waitAux_timedOut_inv (resp : Nat → DescribeStatementResponse) :
    ∀ (remaining attempts : Nat) (status : RedshiftStatus) (n : Nat),
      waitForQueryCompletionAux resp remaining attempts status = .timedOut n →
      n = attempts + remaining ∧
      ∀ j, attempts ≤ j → j < attempts + remaining → isPollingStatus (resp j).status = true := by
  intro remaining
  induction remaining with
  | zero =>
      intro attempts status n h
      simp only [waitForQueryCompletionAux] at h
      cases h
      exact ⟨rfl, fun j hj1 hj2 => absurd hj2 (by omega)⟩
  | succ m ih =>
      intro attempts status n h
      by_cases hs : isPollingStatus status = true
      · by_cases hf : (resp attempts).status = .FAILED
        · simp [waitForQueryCompletionAux, hs, hf] at h
        · by_cases hfin : (resp attempts).status = .FINISHED
          · simp [waitForQueryCompletionAux, hs, hf, hfin] at h
          · have hrec : waitForQueryCompletionAux resp m (attempts + 1) (resp attempts).status =
                .timedOut n := by
              simpa [waitForQueryCompletionAux, hs, hf, hfin] using h
            obtain ⟨hn, hall⟩ := ih (attempts + 1) (resp attempts).status n hrec
            refine ⟨by omega, fun j hj1 hj2 => ?_⟩
            rcases Nat.eq_or_lt_of_le hj1 with rfl | hlt
            · exact polling_of_not_failed_not_finished hf hfin
            · exact hall j (by omega) (by omega)
      · simp [waitForQueryCompletionAux, hs] at h


/-- A `failed` outcome identifies the poll that returned `FAILED` and carries that poll's
`Error` field. -/
theorem waitAux_failed_inv (resp : Nat → DescribeStatementResponse) :
    ∀ (remaining attempts : Nat) (status : RedshiftStatus) (e : String) (n : Nat),
      waitForQueryCompletionAux resp remaining attempts status = .failed e n →
      ∃ k, attempts ≤ k ∧ k < attempts + remaining ∧ n = k + 1 ∧
        (resp k).status = .FAILED ∧ e = (resp k).error := by
  intro remaining
  induction remaining with
  | zero =>
      intro attempts status e n h
      simp [waitForQueryCompletionAux] at h
  | succ m ih =>
      intro attempts status e n h
      by_cases hs : isPollingStatus status = true
      · by_cases hf : (resp attempts).status = .FAILED
        · have : e = (resp attempts).error ∧ n = attempts + 1 := by
            have h' := h
            simp [waitForQueryCompletionAux, hs, hf] at h'
            exact ⟨h'.1.symm, h'.2.symm⟩
          exact ⟨attempts, le_rfl, by omega, this.2, hf, this.1⟩
        · by_cases hfin : (resp attempts).status = .FINISHED
          · simp [waitForQueryCompletionAux, hs, hf, hfin] at h
          · have hrec : waitForQueryCompletionAux resp m (attempts + 1) (resp attempts).status =
                .failed e n := by
              simpa [waitForQueryCompletionAux, hs, hf, hfin] using h
            obtain ⟨k, hk1, hk2, hk3, hk4, hk5⟩ := ih (attempts + 1) (resp attempts).status e n hrec
            exact ⟨k, by omega, by omega, hk3, hk4, hk5⟩
      · simp [waitForQueryCompletionAux, hs] at h

/-- If the first terminal status in the sequence is `FAILED`, at poll index `k` within the
budget, the loop throws the failure error with that poll's reason, after `k + 1` polls. -/
theorem waitAux_failed_of_first_failed (resp : Nat → DescribeStatementResponse) :
    ∀ (remaining attempts : Nat) (status : RedshiftStatus) (k : Nat),
      isPollingStatus status = true →
      attempts ≤ k → k < attempts + remaining →
      (∀ j, attempts ≤ j → j < k → isPollingStatus (resp j).status = true) →
      (resp k).status = .FAILED →
      waitForQueryCompletionAux resp remaining attempts status =
        .failed ((resp k).error) (k + 1) := by
  intro remaining
  induction remaining with
  | zero => intro attempts status k _ hk1 hk2 _ _; omega
  | succ m ih =>
      intro attempts status k hs hk1 hk2 hall hfk
      rcases Nat.eq_or_lt_of_le hk1 with rfl | hlt
      · simp [waitForQueryCompletionAux, hs, hfk]
      · have hj : isPollingStatus (resp attempts).status = true := hall attempts le_rfl hlt
        obtain ⟨h1, h2⟩ := not_failed_not_finished_of_polling hj
        have hrec := ih (attempts + 1) (resp attempts).status k hj (by omega) (by omega)
          (fun j hj1 hj2 => hall j (by omega) hj2) hfk
        simp only [waitForQueryCompletionAux, hs, if_true, h1, h2, if_false, ite_false, hrec]

/-- If the first terminal status in the sequence is `FINISHED`, at poll index `k` within
the budget, the loop returns normally after `k + 1` polls. -/
theorem waitAux_completed_of_first_finished (resp : Nat → DescribeStatementResponse) :
    ∀ (remaining attempts : Nat) (status : RedshiftStatus) (k : Nat),
      isPollingStatus status = true →
      attempts ≤ k → k < attempts + remaining →
      (∀ j, attempts ≤ j → j < k → isPollingStatus (resp j).status = true) →
      (resp k).status = .FINISHED →
      waitForQueryCompletionAux resp remaining attempts status = .completed (k + 1) := by
  intro remaining
  induction remaining with
  | zero => intro attempts status k _ hk1 hk2 _ _; omega
  | succ m ih =>
      intro attempts status k hs hk1 hk2 hall hfk
      rcases Nat.eq_or_lt_of_le hk1 with rfl | hlt
      · have hnf : (resp attempts).status ≠ .FAILED := by rw [hfk]; intro hcon; cases hcon
        simp [waitForQueryCompletionAux, hs, hnf, hfk]
      · have hj : isPollingStatus (resp attempts).status = true := hall attempts le_rfl hlt
        obtain ⟨h1, h2⟩ := not_failed_not_finished_of_polling hj
        have hrec := ih (attempts + 1) (resp attempts).status k hj (by omega) (by omega)
          (fun j hj1 hj2 => hall j (by omega) hj2) hfk
        simp only [waitForQueryCompletionAux, hs, if_true, h1, h2, if_false, ite_false, hrec]

/-- A normal return from the wait loop (started in a non-terminal status) identifies a
poll that returned `FINISHED`. -/
theorem waitAux_completed_inv (resp : Nat → DescribeStatementResponse) :
    ∀ (remaining attempts : Nat) (status : RedshiftStatus) (n : Nat),
      isPollingStatus status = true →
      waitForQueryCompletionAux resp remaining attempts status = .completed n →
      ∃ k, attempts ≤ k ∧ k < attempts + remaining ∧ n = k + 1 ∧
        (resp k).status = .FINISHED := by
  intro remaining
  induction remaining with
  | zero =>
      intro attempts status n hs h
      simp [waitForQueryCompletionAux] at h
  | succ m ih =>
      intro attempts status n hs h
      by_cases hf : (resp attempts).status = .FAILED
      · simp [waitForQueryCompletionAux, hs, hf] at h
      · by_cases hfin : (resp attempts).status = .FINISHED
        · have h' := h
          simp [waitForQueryCompletionAux, hs, hf, hfin] at h'
          exact ⟨attempts, le_rfl, by omega, h'.symm, hfin⟩
        · have hj : isPollingStatus (resp attempts).status = true :=
            polling_of_not_failed_not_finished hf hfin
          have hrec : waitForQueryCompletionAux resp m (attempts + 1) (resp attempts).status =
              .completed n := by
            simpa [waitForQueryCompletionAux, hs, hf, hfin] using h
          obtain ⟨k, hk1, hk2, hk3, hk4⟩ := ih (attempts + 1) (resp attempts).status n hj hrec
          exact ⟨k, by omega, by omega, hk3, hk4⟩

/-- The unbounded Athena loop never produces an outcome on a sequence with no terminal
status, no matter how many polls are observed. -/
theorem athenaWaitLoop_stillPolling (queryStatus : Nat → AthenaQueryStatus)
    (hrun : ∀ i, (queryStatus i).state ≠ "FAILED" ∧ (queryStatus i).state ≠ "SUCCEEDED") :
    ∀ (polls i : Nat), athenaWaitLoop queryStatus polls i = .stillPolling := by
  intro polls
  induction polls with
  | zero => intro i; rfl
  | succ n ih => intro i; simp [athenaWaitLoop, (hrun i).1, (hrun i).2, ih]

/-- For a non-negative dividend (and the natural-number divisors used here), `Int.fdiv`
agrees with Lean division. -/
theorem fdiv_eq_div_of_nonneg (a : Int) (h : 0 ≤ a) (b : Nat) : Int.fdiv a (b : Int) = a / b := by
  obtain ⟨m, rfl⟩ := Int.eq_ofNat_of_zero_le h
  rw [← Int.ofNat_fdiv, Int.ofNat_ediv]


/-! ## Claim theorems -/

/-- C1 (counterexample): the claim says every source connector returns its zero default
TOGETHER WITH an error marker, so the caller can distinguish a true zero count from a
failed source.  The direct Redshift counter refutes this: a failed backend call and a
successful query whose count is genuinely 0 produce the *same* bare `0`, with no marker of
any kind, so no caller can distinguish them. -/
theorem claimC1_counterexample :
    getAccountCountFromRedshift (.error "connection refused") =
      getAccountCountFromRedshift (.ok zeroCountBackend) ∧
    getAccountCountFromRedshift (.error "connection refused") = 0 :=
  ⟨rfl, rfl⟩

/-- C1 (amended): every source connector catches its own backend failure and never
propagates it (all connectors are total functions of their backend outcome); the
contributor-report connectors return the zero report with the error marker set, while the
direct counters (Redshift counts, CloudWatch metrics) return a bare `0` with no marker;
and in a fan-out where one of the three contributor fetches fails, the merged statistics
still carry the other two groups' computed reports, with the failed group exactly zero and
its marker set. -/
theorem claimC1_amended :
    (∀ e : String, getAccountCountFromRedshift (.error e) = 0) ∧
    (∀ e : String, getDeviceCountFromRedshift (.error e) = 0) ∧
    (∀ e : String, getGatewayDeviceCountFromRedshift (.error e) = 0) ∧
    (∀ e : String, getErrorMetricFromCloudWatch (.error e) = 0) ∧
    (∀ e : String, getMessagesFromCloudWatch (.error e) = 0) ∧
    (∀ e : String, getTop10DuplicateAppClients (.error e) =
        { totalEvents := 0, uniqueClients := 0, duplicateClients := []
          clientType := "application", error := some e }) ∧
    (∀ e : String, getTop10DuplicateDeviceClients (.error e) =
        { totalEvents := 0, uniqueClients := 0, duplicateClients := []
          clientType := "device", error := some e }) ∧
    (∀ e : String, getTop10AuthFailureAPPClients (.error e) =
        { totalEvents := 0, uniqueClients := 0, authFailureClients := []
          clientType := "application", error := some e }) ∧
    (∀ (d e : String) (deviceResponse authResponse : Except String InsightRuleReport),
        (getDailyIoTErrorStatistics d (.error e) deviceResponse authResponse).duplicateAppClients =
          { totalEvents := 0, uniqueClients := 0, duplicateClients := []
            clientType := "application", error := some e } ∧
        (getDailyIoTErrorStatistics d (.error e) deviceResponse authResponse).duplicateDeviceClients =
          getTop10DuplicateDeviceClients deviceResponse ∧
        (getDailyIoTErrorStatistics d (.error e) deviceResponse authResponse).authFailureAppClients =
          getTop10AuthFailureAPPClients authResponse) :=
  ⟨fun _ => rfl, fun _ => rfl, fun _ => rfl, fun _ => rfl, fun _ => rfl, fun _ => rfl,
   fun _ => rfl, fun _ => rfl, fun _ _ _ _ => ⟨rfl, rfl, rfl⟩⟩

/-- C2 (counterexample): the claim says the async query connector raises a timeout error
within the 60-poll bound and never polls forever.  The Athena connector
(`gatherStatistics`) refutes this: its poll loop has no attempt bound and no timeout
branch at all — on a status sequence that stays `RUNNING`, after 61 polls (past the
claimed bound) it has produced no outcome and is still polling. -/
theorem claimC2_counterexample :
    athenaWaitLoop (fun _ => { state := "RUNNING", stateChangeReason := "" }) 61 0 =
      .stillPolling := by
  decide

/-- C2 (amended): the Redshift async connector (`waitForQueryCompletion`) behaves exactly
as claimed: it times out (after exactly 60 polls) if and only if the first 60 polls all
return a non-terminal status; it raises the failure error, carrying the backend's `Error`
field, exactly when a poll returns `FAILED`; it returns normally only after a poll returns
the success status (and only then are the result rows fetched and the typed `longValue`
parsed); and on the status sequence SUBMITTED, RUNNING, RUNNING, SUCCEEDED it completes on
the 4th poll with the parsed numeric result.  The Athena connector (`gatherStatistics`),
by contrast, has no poll bound and never raises a timeout: on a never-terminal sequence it
is still polling after every finite number of polls. -/
theorem claimC2_amended :
    (∀ resp : Nat → DescribeStatementResponse,
        (∀ j, j < 60 → isPollingStatus (resp j).status = true) →
        waitForQueryCompletion resp = .timedOut 60) ∧
    (∀ (resp : Nat → DescribeStatementResponse) (n : Nat),
        waitForQueryCompletion resp = .timedOut n →
        n = 60 ∧ ∀ j, j < 60 → isPollingStatus (resp j).status = true) ∧
    (∀ (resp : Nat → DescribeStatementResponse) (k : Nat),
        k < 60 → (∀ j, j < k → isPollingStatus (resp j).status = true) →
        (resp k).status = .FAILED →
        waitForQueryCompletion resp = .failed ((resp k).error) (k + 1)) ∧
    (∀ (resp : Nat → DescribeStatementResponse) (e : String) (n : Nat),
        waitForQueryCompletion resp = .failed e n →
        ∃ k, k < 60 ∧ n = k + 1 ∧ (resp k).status = .FAILED ∧ e = (resp k).error) ∧
    (∀ (resp : Nat → DescribeStatementResponse) (n : Nat),
        waitForQueryCompletion resp = .completed n →
        ∃ k, k < 60 ∧ n = k + 1 ∧ (resp k).status = .FINISHED) ∧
    (waitForQueryCompletion scenarioStatusSeq = .completed 4 ∧
      getAccountCountFromRedshift
        (.ok { statusResponse := scenarioStatusSeq, records := [[some 42]] }) = 42) ∧
    (∀ polls : Nat,
        athenaWaitLoop (fun _ => { state := "RUNNING", stateChangeReason := "" }) polls 0 =
          .stillPolling) := by
  refine ⟨?_, ?_, ?_, ?_, ?_, ⟨rfl, rfl⟩, ?_⟩
  · intro resp h
    exact waitAux_timedOut_of_all_polling resp 60 0 .SUBMITTED rfl
      (fun j _ hj => h j (by omega))
  · intro resp n h
    obtain ⟨h1, h2⟩ := waitAux_timedOut_inv resp 60 0 .SUBMITTED n h
    exact ⟨by omega, fun j hj => h2 j (by omega) (by omega)⟩
  · intro resp k hk hall hfk
    exact waitAux_failed_of_first_failed resp 60 0 .SUBMITTED k rfl (Nat.zero_le k)
      (by omega) (fun j _ hj => hall j hj) hfk
  · intro resp e n h
    obtain ⟨k, hk1, hk2, hk3, hk4, hk5⟩ := waitAux_failed_inv resp 60 0 .SUBMITTED e n h
    exact ⟨k, by omega, hk3, hk4, hk5⟩
  · intro resp n h
    obtain ⟨k, hk1, hk2, hk3, hk4⟩ := waitAux_completed_inv resp 60 0 .SUBMITTED n rfl h
    exact ⟨k, by omega, hk3, hk4⟩
  · intro polls
    exact athenaWaitLoop_stillPolling _ (fun i => ⟨by decide, by decide⟩) polls 0

/-- C2 (witness): the timeout direction of the amended theorem at a concrete
always-running status sequence. -/
theorem claimC2_witness :
    waitForQueryCompletion (fun _ => { status := .STARTED, error := "" }) = .timedOut 60 :=
  claimC2_amended.1 (fun _ => { status := .STARTED, error := "" }) (fun _ _ => rfl)


/-- C3 (counterexample): the claim says every percentage-of-total yields exactly 0 on a
zero denominator, never NaN or Infinity, and in particular each ContributorRecord's
percentage is 0 when the report's total event count is 0.  The contributor mapping refutes
this: on a response with aggregate total 0 and one contributor with count 5, the record's
percentage is `Infinity` (rendered "Infinity" by `toFixed`), not 0. -/
theorem claimC3_counterexample :
    ((getTop10DuplicateAppClients (.ok zeroTotalInsightResponse)).duplicateClients.map
        (fun r => r.percentage)) = [JsNum.inf] ∧
    JsNum.inf ≠ JsNum.num 0 := by
  exact ⟨rfl, by decide⟩

/-- C3 (amended): every *guarded* percentage-of-total computation (the thing-type shares,
the message success rates, the error-overview shares, the average-per-client figures, and
the day-over-day change percent, which yields the non-numeric `N/A`) special-cases a zero
denominator to 0; but the ContributorRecord percentage is computed by an unguarded
division and yields NaN (for a zero count) or Infinity (for a positive count) when the
report's aggregate total is 0, and NaN when the aggregate field is absent. -/
theorem claimC3_amended :
    (∀ a t : Int, t = 0 → accountTypeSharePercent a t = 0) ∧
    (∀ a t : Int, t = 0 → deviceTypeSharePercent a t = 0) ∧
    (∀ s t : ℚ, t = 0 → messageSuccessRate s t = 0) ∧
    (∀ c t : Nat, t = 0 → overviewSharePercent c t = 0) ∧
    (∀ te uc : Nat, uc = 0 → averagePerClient te uc = 0) ∧
    (∀ t y : Nat, y = 0 → comparisonChangePercent t y = none) ∧
    (∀ (c : InsightContributor) (index : Nat),
        (mkDuplicateClientRecord (some 0) index c).percentage =
          if c.approximateAggregateValue = 0 then JsNum.nan else JsNum.inf) ∧
    (∀ (c : InsightContributor) (index : Nat),
        (mkDuplicateClientRecord none index c).percentage = JsNum.nan) := by
  refine ⟨?_, ?_, ?_, ?_, ?_, ?_, ?_, ?_⟩
  · intro a t h; subst h; simp [accountTypeSharePercent]
  · intro a t h; subst h; simp [deviceTypeSharePercent]
  · intro s t h; subst h; simp [messageSuccessRate]
  · intro c t h; subst h; simp [overviewSharePercent]
  · intro te uc h; subst h; simp [averagePerClient]
  · intro t y h; subst h; simp [comparisonChangePercent]
  · intro c index
    by_cases hc : c.approximateAggregateValue = 0
    · simp [mkDuplicateClientRecord, jsDiv, jsMul100, hc]
    · have h1 : ((c.approximateAggregateValue : ℚ)) ≠ 0 := by exact_mod_cast hc
      have h2 : (0 : ℚ) < (c.approximateAggregateValue : ℚ) := by
        exact_mod_cast Nat.pos_of_ne_zero hc
      simp [mkDuplicateClientRecord, jsDiv, jsMul100, hc, h1, h2]
  · intro c index
    simp [mkDuplicateClientRecord, jsDiv, jsMul100]

/-- C3 (witness): the guarded overview share at a concrete zero total. -/
theorem claimC3_witness : overviewSharePercent 7 0 = 0 :=
  claimC3_amended.2.2.2.1 7 0 rfl

/-- C4: each get-statistics-from-S3 function is total (it never raises to its caller) and,
for a missing (`.error ()`) or malformed (`.ok none`) stored record, returns its
documented zero-baseline object, whose numeric leaves are all 0 and whose structured
leaves are all empty reports. -/
theorem claimC4_theorem :
    (∀ fetch : Except Unit (Option YesterdayThingDoc),
        (fetch = .error () ∨ fetch = .ok none) →
        getYesterdayStatisticsFromS3 fetch = yesterdayThingDefault) ∧
    (∀ fetch : Except Unit (Option StoredErrorDoc),
        (fetch = .error () ∨ fetch = .ok none) →
        getErrorStatisticsFromS3 fetch = errorStatisticsDefault) ∧
    (∀ fetch : Except Unit (Option StoredMsgDoc),
        (fetch = .error () ∨ fetch = .ok none) →
        getMessageStatisticsFromS3 fetch = messageStatisticsDefault) ∧
    yesterdayThingDefault =
      { accountThingCount := some 0, deviceThingCount := some 0, totalThingCount := some 0 } ∧
    errorStatisticsDefault.totalErrors = some 0 ∧
    errorStatisticsDefault.connectionErrors = some { total := 0 } ∧
    errorStatisticsDefault.publishInErrors = some { total := 0 } ∧
    errorStatisticsDefault.publishOutErrors = some { total := 0 } ∧
    errorStatisticsDefault.subscribeErrors = some { total := 0 } ∧
    errorStatisticsDefault.duplicateClients = some
      { applications := { totalEvents := 0, duplicateClients := [] }
        devices := { totalEvents := 0, duplicateClients := [] } } ∧
    messageStatisticsDefault =
      { totalMessages := some 0
        inbound := some { total := some 0, success := some 0 }
        outbound := some { total := some 0, success := some 0 }
        connections := some { total := some 0, success := some 0 } } := by
  refine ⟨?_, ?_, ?_, rfl, rfl, rfl, rfl, rfl, rfl, rfl, rfl⟩ <;>
    rintro fetch (rfl | rfl) <;> rfl

/-- C4 (witness): the missing-record case of each store at a concrete fetch failure. -/
theorem claimC4_witness :
    getYesterdayStatisticsFromS3 (.error ()) = yesterdayThingDefault ∧
    getErrorStatisticsFromS3 (.ok none) = errorStatisticsDefault ∧
    getMessageStatisticsFromS3 (.error ()) = messageStatisticsDefault :=
  ⟨claimC4_theorem.1 _ (Or.inl rfl), claimC4_theorem.2.1 _ (Or.inr rfl),
   claimC4_theorem.2.2.1 _ (Or.inl rfl)⟩

/-- C5: day-over-day deltas are computed leaf by leaf as today minus yesterday, with a
leaf missing from yesterday's stored snapshot read as baseline zero (`|| 0`); the
comparison change percent is `change / yesterday * 100` exactly when yesterday is nonzero
and the non-numeric `N/A` when yesterday is zero; the account-count scenario 1,200,000
against a stored 1,195,000 yields increment +5,000, and an entirely absent yesterday
snapshot yields increments equal to today's full values. -/
theorem claimC5_theorem :
    (∀ today yesterday : Nat,
        comparisonChange today yesterday = (today : Int) - (yesterday : Int)) ∧
    (∀ today yesterday : Nat, yesterday ≠ 0 →
        comparisonChangePercent today yesterday =
          some ((comparisonChange today yesterday : ℚ) / (yesterday : ℚ) * 100)) ∧
    (∀ today yesterday : Nat, yesterday = 0 →
        comparisonChangePercent today yesterday = none) ∧
    (∀ (today : String) (acct dev gw : Except String RedshiftQueryBackend)
        (yfetch : Except Unit (Option YesterdayThingDoc)),
        getAWSIotCoreStatistic today acct dev gw yfetch (.ok ()) =
          .ok { date := today
                accountThingCount := getAccountCountFromRedshift acct
                deviceThingCount :=
                  getDeviceCountFromRedshift dev + getGatewayDeviceCountFromRedshift gw
                totalThingCount :=
                  getAccountCountFromRedshift acct +
                    (getDeviceCountFromRedshift dev + getGatewayDeviceCountFromRedshift gw)
                accountThingIncrement :=
                  getAccountCountFromRedshift acct -
                    (getYesterdayStatisticsFromS3 yfetch).accountThingCount.getD 0
                deviceThingIncrement :=
                  (getDeviceCountFromRedshift dev + getGatewayDeviceCountFromRedshift gw) -
                    (getYesterdayStatisticsFromS3 yfetch).deviceThingCount.getD 0
                totalThingIncrement :=
                  (getAccountCountFromRedshift acct +
                    (getDeviceCountFromRedshift dev + getGatewayDeviceCountFromRedshift gw)) -
                    (getYesterdayStatisticsFromS3 yfetch).totalThingCount.getD 0
                yesterdayData :=
                  { accountThingCount :=
                      (getYesterdayStatisticsFromS3 yfetch).accountThingCount.getD 0
                    deviceThingCount :=
                      (getYesterdayStatisticsFromS3 yfetch).deviceThingCount.getD 0
                    totalThingCount :=
                      (getYesterdayStatisticsFromS3 yfetch).totalThingCount.getD 0 } }) ∧
    (getAWSIotCoreStatistic "2025-07-28" (.ok millionAccountBackend) (.ok emptyRecordsBackend)
        (.ok emptyRecordsBackend)
        (.ok (some { accountThingCount := some 1195000, deviceThingCount := some 0
                     totalThingCount := some 1195000 })) (.ok ()) =
      .ok { date := "2025-07-28", accountThingCount := 1200000, deviceThingCount := 0
            totalThingCount := 1200000, accountThingIncrement := 5000
            deviceThingIncrement := 0, totalThingIncrement := 5000
            yesterdayData := { accountThingCount := 1195000, deviceThingCount := 0
                               totalThingCount := 1195000 } }) ∧
    (getAWSIotCoreStatistic "2025-07-28" (.ok millionAccountBackend) (.ok emptyRecordsBackend)
        (.ok emptyRecordsBackend) (.error ()) (.ok ()) =
      .ok { date := "2025-07-28", accountThingCount := 1200000, deviceThingCount := 0
            totalThingCount := 1200000, accountThingIncrement := 1200000
            deviceThingIncrement := 0, totalThingIncrement := 1200000
            yesterdayData := { accountThingCount := 0, deviceThingCount := 0
                               totalThingCount := 0 } }) := by
  refine ⟨fun _ _ => rfl, ?_, ?_, fun _ _ _ _ _ => rfl, by decide, by decide⟩
  · intro today yesterday h
    unfold comparisonChangePercent
    rw [if_pos (Nat.pos_of_ne_zero h)]
  · intro today yesterday h
    subst h
    simp [comparisonChangePercent]

/-- C5 (witness): the nonzero-yesterday change percent at the scenario figures. -/
theorem claimC5_witness :
    comparisonChangePercent 1200000 1195000 =
      some ((comparisonChange 1200000 1195000 : ℚ) / (1195000 : ℚ) * 100) :=
  claimC5_theorem.2.1 1200000 1195000 (by decide)

/-- C6: a persistence failure (the rethrow in `saveTodayStatisticsToS3`) aborts the run:
`getAWSIotCoreStatistic` then resolves to the error-report object, never to a normal
statistics result; whereas with persistence succeeding the run always resolves to a normal
statistics result, even when every source backend failed (the degraded all-zero run shown
at a concrete input). -/
theorem claimC6_theorem :
    (∀ (today : String) (acct dev gw : Except String RedshiftQueryBackend)
        (yfetch : Except Unit (Option YesterdayThingDoc)) (e : String),
        getAWSIotCoreStatistic today acct dev gw yfetch (.error e) = .errorReport e) ∧
    (∀ (today : String) (acct dev gw : Except String RedshiftQueryBackend)
        (yfetch : Except Unit (Option YesterdayThingDoc)),
        ∃ s, getAWSIotCoreStatistic today acct dev gw yfetch (.ok ()) = .ok s) ∧
    (getAWSIotCoreStatistic "2025-07-28" (.error "redshift down") (.error "redshift down")
        (.error "redshift down") (.error ()) (.ok ()) =
      .ok { date := "2025-07-28", accountThingCount := 0, deviceThingCount := 0
            totalThingCount := 0, accountThingIncrement := 0, deviceThingIncrement := 0
            totalThingIncrement := 0
            yesterdayData := { accountThingCount := 0, deviceThingCount := 0
                               totalThingCount := 0 } }) :=
  ⟨fun _ _ _ _ _ _ => rfl, fun _ _ _ _ _ => ⟨_, rfl⟩, rfl⟩


/-- C7: for every window, the aggregation period computed by the contributor connectors is
clamped to [3600, 86400] and is a multiple of 60; a 10-minute window (600000 ms) yields
3600 and a 30-hour window (108000000 ms) yields 86400; and all three contributor
connectors invoked by a run (`iot-duplicateclientid-account`, `iot-duplicateclientid-device`,
`iot-authorizationfailure-app`) send exactly this period. -/
theorem claimC7_theorem :
    (∀ timeDiffMs : Int,
        3600 ≤ computeInsightPeriod timeDiffMs ∧
        computeInsightPeriod timeDiffMs ≤ 86400 ∧
        (60 : Int) ∣ computeInsightPeriod timeDiffMs) ∧
    computeInsightPeriod 600000 = 3600 ∧
    computeInsightPeriod 108000000 = 86400 ∧
    (∀ timeDiffMs : Int,
        (duplicateAppClientsParams timeDiffMs).period = computeInsightPeriod timeDiffMs ∧
        (duplicateDeviceClientsParams timeDiffMs).period = computeInsightPeriod timeDiffMs ∧
        (authFailureAppClientsParams timeDiffMs).period = computeInsightPeriod timeDiffMs) := by
  refine ⟨?_, by decide, by decide, fun _ => ⟨rfl, rfl, rfl⟩⟩
  intro d
  simp only [computeInsightPeriod]
  set t := Int.fdiv d 1000 with ht
  set c := min (86400 : Int) (max 3600 t) with hc
  have h1 : (3600 : Int) ≤ c := le_min (by norm_num) (le_max_left _ _)
  have h2 : c ≤ 86400 := min_le_left _ _
  have hf : Int.fdiv c 60 = c / 60 := by
    have h0 : (0 : Int) ≤ c := by omega
    obtain ⟨m, hm⟩ := Int.eq_ofNat_of_zero_le h0
    rw [hm, show (60 : Int) = ((60 : Nat) : Int) from rfl, ← Int.ofNat_fdiv, Int.ofNat_ediv]
  refine ⟨?_, ?_, ?_⟩ <;> rw [hf] <;> split_ifs with hlt <;> omega

/-- C8 (counterexample): the claim says a fresh live recomputation happens only if the
stored previous-day snapshot is entirely absent.  A stored snapshot written by the earlier
revision of the module refutes this: it is present in S3 (the fetch succeeds and parses),
yet because it has none of the three expected contributor-group fields the run performs
the live recomputation anyway. -/
theorem claimC8_counterexample :
    resolveYesterdayComparison (.ok (some oldFormatStoredDoc)) liveSampleDoc =
      Sum.inr liveSampleDoc :=
  rfl

/-- C8 (amended): the live recomputation happens exactly when the loaded comparison object
has none of the three expected contributor-group fields — which is the case for an absent
or malformed stored snapshot (the zero default has none of them) but also for a present
old-format snapshot; whenever the stored snapshot has at least one expected metric group,
it is used as-is without re-querying any source. -/
theorem claimC8_amended :
    (∀ (fetch : Except Unit (Option StoredErrorDoc)) (live : ErrorStatisticsDoc),
        (fetch = .error () ∨ fetch = .ok none) →
        resolveYesterdayComparison fetch live = Sum.inr live) ∧
    (∀ (doc : StoredErrorDoc) (live : ErrorStatisticsDoc),
        (doc.duplicateAppClients.isSome ∨ doc.duplicateDeviceClients.isSome ∨
          doc.authFailureAppClients.isSome) →
        resolveYesterdayComparison (.ok (some doc)) live = Sum.inl doc) ∧
    (∀ (fetch : Except Unit (Option StoredErrorDoc)) (live : ErrorStatisticsDoc),
        resolveYesterdayComparison fetch live = Sum.inr live ↔
          needsLiveRecompute (getErrorStatisticsFromS3 fetch) = true) := by
  refine ⟨?_, ?_, ?_⟩
  · rintro fetch live (rfl | rfl) <;> rfl
  · intro doc live h
    have hb : needsLiveRecompute doc = false := by
      rcases h with h | h | h <;>
        · obtain ⟨v, hv⟩ := Option.isSome_iff_exists.mp h
          simp [needsLiveRecompute, hv]
    simp [resolveYesterdayComparison, getErrorStatisticsFromS3, hb]
  · intro fetch live
    by_cases hb : needsLiveRecompute (getErrorStatisticsFromS3 fetch) = true <;>
      simp [resolveYesterdayComparison, hb]

/-- C8 (witness): the absent-snapshot direction at a concrete failed fetch. -/
theorem claimC8_witness :
    resolveYesterdayComparison (.error ()) liveSampleDoc = Sum.inr liveSampleDoc :=
  claimC8_amended.1 (.error ()) liveSampleDoc (Or.inl rfl)

/-- C9 (counterexample): the claim puts the boundary totals on the higher rung
(1,000 → attention, 10,000 → warning, 50,000 → critical).  The renderer's ladder uses
strict comparisons, so a total of exactly 1,000 is classified normal, not attention
(likewise 10,000 → attention and 50,000 → warning). -/
theorem claimC9_counterexample :
    renderedSeverity 1000 = some Severity.normal ∧
    renderedSeverity 10000 = some Severity.attention ∧
    renderedSeverity 50000 = some Severity.warning ∧
    Severity.normal ≠ Severity.attention := by
  refine ⟨?_, ?_, ?_, by decide⟩ <;> decide

/-- C9 (amended): the severity ladder uses exclusive lower bounds: for a nonzero total n,
n ≤ 1,000 is normal, 1,000 < n ≤ 10,000 is attention, 10,000 < n ≤ 50,000 is warning and
n > 50,000 is critical; a total of exactly 0 renders the healthy-system block with no
severity classification at all. -/
theorem claimC9_amended :
    renderedSeverity 0 = none ∧
    (∀ n : Nat, 1 ≤ n → n ≤ 1000 → renderedSeverity n = some Severity.normal) ∧
    (∀ n : Nat, 1000 < n → n ≤ 10000 → renderedSeverity n = some Severity.attention) ∧
    (∀ n : Nat, 10000 < n → n ≤ 50000 → renderedSeverity n = some Severity.warning) ∧
    (∀ n : Nat, 50000 < n → renderedSeverity n = some Severity.critical) := by
  refine ⟨rfl, ?_, ?_, ?_, ?_⟩
  · intro n h1 h2
    unfold renderedSeverity severityOfTotalErrors
    split_ifs <;> first | rfl | omega
  · intro n h1 h2
    unfold renderedSeverity severityOfTotalErrors
    split_ifs <;> first | rfl | omega
  · intro n h1 h2
    unfold renderedSeverity severityOfTotalErrors
    split_ifs <;> first | rfl | omega
  · intro n h1
    unfold renderedSeverity severityOfTotalErrors
    split_ifs <;> first | rfl | omega

/-- C9 (witness): the normal band of the amended ladder at a concrete total. -/
theorem claimC9_witness : renderedSeverity 500 = some Severity.normal :=
  claimC9_amended.2.1 500 (by decide) (by decide)

/-- C10: the error-report renderer never throws on the malformed inputs named by the
claim — for a missing statistics object, or one whose `date` field is absent, it returns
the fixed well-formed text-type message stating the data is invalid, never a markdown
report (the renderer is a total function, so nothing propagates to the caller). -/
theorem claimC10_theorem :
    (∀ comparison : Option RenderInput,
        formatIoTErrorStatisticsMessage none comparison = invalidStatisticsMessage) ∧
    (∀ (s : RenderInput) (comparison : Option RenderInput), s.date = none →
        formatIoTErrorStatisticsMessage (some s) comparison = invalidStatisticsMessage) ∧
    invalidStatisticsMessage = .text "❌ 错误：统计数据格式不正确或缺少日期信息" := by
  refine ⟨fun _ => rfl, ?_, rfl⟩
  intro s comparison h
  simp [formatIoTErrorStatisticsMessage, h]

/-- C10 (witness): the missing-date case at a concrete statistics object. -/
theorem claimC10_witness :
    formatIoTErrorStatisticsMessage
      (some { date := none, duplicateAppClients := none, duplicateDeviceClients := none
              authFailureAppClients := none }) none = invalidStatisticsMessage :=
  claimC10_theorem.2.1 _ none rfl

end AwsIotLogs
